import Mathlib

/-! Verification of the hierarchical location filter and form controller of the
paddypress admin console. The React pages are embedded shallowly: filter and
form state become records, selection handlers and query-enabled flags become
pure functions, and the zod schemas become decidable validity predicates. The
remote REST API is an external collaborator; where a claim depends on its
contract the endpoint is modelled from the contract stated in the spec. -/

/-! ## Data model (types/adminLocations and types/adminIkpLocations) -/

/-- District record of the Locations master data: identifier, parent state
reference, display name and the soft-delete flag. -/
structure AdminDistrict where
  id : String
  stateId : String
  name : String
  isActive : Bool
  deriving DecidableEq, Repr

/-- Mandal record of the Locations master data. -/
structure AdminMandal where
  id : String
  districtId : String
  name : String
  isActive : Bool
  deriving DecidableEq, Repr

/-- District record of the IKP master data. -/
structure AdminIkpDistrict where
  id : String
  stateId : String
  name : String
  isActive : Bool
  deriving DecidableEq, Repr

/-- Mandal record of the IKP master data. -/
structure AdminIkpMandal where
  id : String
  districtId : String
  name : String
  isActive : Bool
  deriving DecidableEq, Repr

/-! ## IkpCentersPage: filter state and cascading reset -/

namespace IkpCentersPage

/-- Filter state of the IKP Centers page (IkpCentersPage.tsx lines 396-403). -/
structure Filters where
  search : String
  stateId : String
  districtId : String
  mandalId : String
  villageId : String
  includeInactive : Bool
  deriving DecidableEq, Repr

/-- Handler of the State filter Select (IkpCentersPage.tsx lines 548-558):
sets the state id and clears the district, mandal and village selections. -/
def setStateFilter (p : Filters) (v : String) : Filters :=
  { p with stateId := v, districtId := "", mandalId := "", villageId := "" }

/-- Enabled flag of the districts filter query (IkpCentersPage.tsx line 438):
Boolean of the state id being truthy and its trim being truthy. -/
def districtsFilterQueryEnabled (stateId : String) : Bool :=
  (stateId != "") && (stateId.trim != "")

/-- Enabled flag of the mandals filter query (IkpCentersPage.tsx line 450). -/
def mandalsFilterQueryEnabled (districtId : String) : Bool :=
  (districtId != "") && (districtId.trim != "")

/-- Enabled flag of the villages filter query (IkpCentersPage.tsx line 462). -/
def villagesFilterQueryEnabled (mandalId : String) : Bool :=
  (mandalId != "") && (mandalId.trim != "")

end IkpCentersPage

/-! ## IkpCenterDialog: form state, cascading reset, dependent queries -/

namespace IkpCenterDialog

/-- Form data of the IKP center dialog (ikpCenterSchema fields,
IkpCentersPage.tsx lines 81-89). -/
structure FormData where
  stateId : String
  districtId : String
  mandalId : String
  villageId : String
  name : String
  notes : String
  isActive : Bool
  deriving DecidableEq, Repr

/-- Combined effect of selecting a state value in the dialog: the Controller
writes the new state id, and the effect at IkpCentersPage.tsx lines 133-143
clears districtId, mandalId and villageId when the value differs from the
previous one. -/
def stateSelectionChange (f : FormData) (v : String) : FormData :=
  if v = f.stateId then { f with stateId := v }
  else { f with stateId := v, districtId := "", mandalId := "", villageId := "" }

/-- Enabled flag of the dialog districts query (IkpCentersPage.tsx line 167). -/
def districtsQueryEnabled (stateIdValue : String) : Bool :=
  (stateIdValue != "") && (stateIdValue.trim != "")

/-- Enabled flag of the dialog mandals query (IkpCentersPage.tsx line 191). -/
def mandalsQueryEnabled (districtIdValue : String) : Bool :=
  (districtIdValue != "") && (districtIdValue.trim != "")

/-- Enabled flag of the dialog villages query (IkpCentersPage.tsx line 179). -/
def villagesQueryEnabled (mandalIdValue : String) : Bool :=
  (mandalIdValue != "") && (mandalIdValue.trim != "")

end IkpCenterDialog

/-! ## Remote list endpoint, modelled from its contract -/

/-- Modelled from the spec: the remote listAdminIkpDistricts endpoint is not
part of this repository (spec section 6 treats the data API as an external
collaborator whose list endpoints accept ancestor-id filters); per that
contract, listing districts with a stateId filter returns the districts of the
backing collection whose parent id equals the filter. -/
def listAdminIkpDistrictsByState (all : List AdminIkpDistrict) (stateId : String) :
    List AdminIkpDistrict :=
  all.filter (fun d => d.stateId == stateId)

/-! ## LocationsVillageDialog: form chain and derived option lists -/

namespace LocationsVillageDialog

/-- Form data of the Locations village dialog (villageSchema fields,
LocationsVillageDialog.tsx lines 31-39); the optional code and pincode are
empty strings when absent. -/
structure FormData where
  stateId : String
  districtId : String
  mandalId : String
  name : String
  code : String
  pincode : String
  isActive : Bool
  deriving DecidableEq, Repr

/-- Handler of the State combobox (LocationsVillageDialog.tsx lines 124-128):
writes the new state id and clears districtId and mandalId. -/
def stateOnValueChange (f : FormData) (v : String) : FormData :=
  { f with stateId := v, districtId := "", mandalId := "" }

/-- Handler of the District combobox (LocationsVillageDialog.tsx line 145):
writes the new district id and clears mandalId. -/
def districtOnValueChange (f : FormData) (v : String) : FormData :=
  { f with districtId := v, mandalId := "" }

/-- Derived district options (LocationsVillageDialog.tsx lines 84-87): empty
when no state is selected, else the districts whose stateId matches. -/
def filteredDistricts (districts : List AdminDistrict) (selectedStateId : String) :
    List AdminDistrict :=
  if selectedStateId = "" then []
  else districts.filter (fun d => d.stateId == selectedStateId)

/-- Derived mandal options (LocationsVillageDialog.tsx lines 89-92). -/
def filteredMandals (mandals : List AdminMandal) (selectedDistrictId : String) :
    List AdminMandal :=
  if selectedDistrictId = "" then []
  else mandals.filter (fun m => m.districtId == selectedDistrictId)

/-- Validity of the village form under villageSchema: each required id and the
name must be non-empty strings (z.string().min(1)). -/
def schemaIsValid (f : FormData) : Bool :=
  decide (1 ≤ f.stateId.length) && decide (1 ≤ f.districtId.length) &&
  decide (1 ≤ f.mandalId.length) && decide (1 ≤ f.name.length)

/-- Submit button disabled flag (LocationsVillageDialog.tsx line 207). -/
def submitDisabled (isSaving isValid : Bool) : Bool :=
  isSaving || !isValid

end LocationsVillageDialog

/-! ## Locations pages: filter option groups -/

namespace LocationsMandalsPage

/-- District options of the filter combobox (part_001 lines 280-286): the
districts narrowed by the state filter when one is chosen, otherwise the whole
district collection. -/
def districtFilterGroups (districts : List AdminDistrict) (stateFilter : String) :
    List AdminDistrict :=
  if stateFilter = "" then districts
  else districts.filter (fun d => d.stateId == stateFilter)

end LocationsMandalsPage

namespace LocationsVillagesPage

/-- District options of the filter combobox (part_001 lines 1563-1569), same
derivation as on the mandals page. -/
def districtFilterGroups (districts : List AdminDistrict) (stateFilter : String) :
    List AdminDistrict :=
  if stateFilter = "" then districts
  else districts.filter (fun d => d.stateId == stateFilter)

/-- Mandal options of the filter combobox (part_001 lines 1571-1577). -/
def mandalFilterGroups (mandals : List AdminMandal) (districtFilter : String) :
    List AdminMandal :=
  if districtFilter = "" then mandals
  else mandals.filter (fun m => m.districtId == districtFilter)

end LocationsVillagesPage

/-! ## IkpMandalsPage and IkpVillagesPage: dependent query gating -/

namespace IkpMandalsPage

/-- Query-relevant state of the IKP Mandals page: the state filter value and
whether the states query has succeeded. -/
structure QueryState where
  stateId : String
  statesSuccess : Bool
  deriving DecidableEq, Repr

/-- Enabled flag of the districts query (IkpMandalsPage.tsx line 204): the
query runs as soon as the states query has succeeded, with no condition on the
state filter being chosen. -/
def districtsQueryEnabled (s : QueryState) : Bool :=
  s.statesSuccess

end IkpMandalsPage

namespace IkpVillagesPage

/-- Enabled flag of the districts query (part_001 line 895). -/
def districtsQueryEnabled (stateId : String) (statesSuccess : Bool) : Bool :=
  ((stateId != "") && (stateId.trim != "")) && statesSuccess

/-- Enabled flag of the mandals query (part_001 line 907). -/
def mandalsQueryEnabled (districtId : String) (districtsSuccess : Bool) : Bool :=
  ((districtId != "") && (districtId.trim != "")) && districtsSuccess

/-- Enabled flag of the villages list query (part_001 line 920). -/
def listQueryEnabled (mandalId : String) (mandalsSuccess : Bool) : Bool :=
  ((mandalId != "") && (mandalId.trim != "")) && mandalsSuccess

end IkpVillagesPage

/-! ## Mutation error handling (IkpMandalsPage) -/

/-- Discrimination of a thrown value at the mutation boundary: either a
recognizable Error carrying a message (err instanceof Error) or any other
thrown value. -/
inductive RemoteFailure where
  | recognized (message : String)
  | unrecognized
  deriving DecidableEq, Repr

/-- Toast message chosen on a failed mutation: the remote message when the
thrown value is a recognizable Error, otherwise the given fallback string. -/
def remoteFailureToast (e : RemoteFailure) (fallback : String) : String :=
  match e with
  | .recognized message => message
  | .unrecognized => fallback

/-- Kind of a toast, success or error. -/
inductive ToastKind where
  | success
  | error
  deriving DecidableEq, Repr

/-- A toast notification as shown by showToast. -/
structure Toast where
  message : String
  kind : ToastKind
  deriving DecidableEq, Repr

namespace IkpMandalsPage

/-- Dialog and list state of the IKP Mandals page that the mutation callbacks
touch (IkpMandalsPage.tsx lines 186-188, 235-269): the create dialog open
flag, the row being edited, the deactivation target, the fetched rows, and the
toasts shown so far (most recent first). -/
structure PageState where
  createOpen : Bool
  editing : Option AdminIkpMandal
  deactivateTarget : Option AdminIkpMandal
  items : List AdminIkpMandal
  toasts : List Toast
  deriving DecidableEq, Repr

/-- onError of createMutation (IkpMandalsPage.tsx lines 242-244): shows the
error toast and changes nothing else. -/
def createOnError (e : RemoteFailure) (s : PageState) : PageState :=
  { s with toasts :=
      { message := remoteFailureToast e "Failed to create mandal.", kind := .error } :: s.toasts }

/-- onError of updateMutation (IkpMandalsPage.tsx lines 254-256). -/
def updateOnError (e : RemoteFailure) (s : PageState) : PageState :=
  { s with toasts :=
      { message := remoteFailureToast e "Failed to update mandal.", kind := .error } :: s.toasts }

/-- onError of deactivateMutation (IkpMandalsPage.tsx lines 266-268): only a
toast; the deactivate target is cleared in onSuccess alone. -/
def deactivateOnError (e : RemoteFailure) (s : PageState) : PageState :=
  { s with toasts :=
      { message := remoteFailureToast e "Failed to deactivate mandal.", kind := .error } :: s.toasts }

/-- onSuccess of deactivateMutation (IkpMandalsPage.tsx lines 261-264): shows
the success toast and clears the deactivation target. -/
def deactivateOnSuccess (message : String) (s : PageState) : PageState :=
  { s with deactivateTarget := none,
           toasts := { message := message, kind := .success } :: s.toasts }

/-! ### MandalDialog: schema validity and submit gating -/

/-- Form data of the mandal dialog (mandalSchema fields, IkpMandalsPage.tsx
lines 64-68). -/
structure FormData where
  districtId : String
  name : String
  isActive : Bool
  deriving DecidableEq, Repr

/-- Validity under mandalSchema: non-empty district id, name between 1 and
100 characters. -/
def mandalSchemaIsValid (f : FormData) : Bool :=
  decide (1 ≤ f.districtId.length) && decide (1 ≤ f.name.length) &&
  decide (f.name.length ≤ 100)

/-- Dirtiness of the form relative to the loaded snapshot (react-hook-form
isDirty): some field differs from the default values the form was reset to. -/
def formIsDirty (f snapshot : FormData) : Bool :=
  decide (f ≠ snapshot)

/-- Submit button disabled flag of MandalDialog (IkpMandalsPage.tsx line 167):
saving in flight, invalid form, or, when the district selector is locked,
a pristine form. -/
def submitDisabled (isSaving isValid disableDistrict isDirty : Bool) : Bool :=
  isSaving || !isValid || (if disableDistrict then !isDirty else false)

end IkpMandalsPage

/-! ## IkpDistrictsPage: DistrictDialog submit gating -/

namespace IkpDistrictsPage

/-- Form data of the IKP district dialog (districtSchema fields, part_000
lines 63-67). -/
structure FormData where
  stateId : String
  name : String
  isActive : Bool
  deriving DecidableEq, Repr

/-- Validity under districtSchema: non-empty state id, name between 1 and
100 characters. -/
def districtSchemaIsValid (f : FormData) : Bool :=
  decide (1 ≤ f.stateId.length) && decide (1 ≤ f.name.length) &&
  decide (f.name.length ≤ 100)

/-- Submit button disabled flag of DistrictDialog (part_000 line 166). -/
def submitDisabled (isSaving isValid disableState isDirty : Bool) : Bool :=
  isSaving || !isValid || (if disableState then !isDirty else false)

end IkpDistrictsPage

/-! ## LocationsDistrictDialog: schema validity and submit gating -/

namespace LocationsDistrictDialog

/-- Form data of the Locations district dialog (districtSchema fields,
LocationsDistrictDialog.tsx lines 31-36); the optional code is an empty string
when absent. -/
structure FormData where
  stateId : String
  name : String
  code : String
  isActive : Bool
  deriving DecidableEq, Repr

/-- Validity under the Locations districtSchema: non-empty state id and
name. -/
def schemaIsValid (f : FormData) : Bool :=
  decide (1 ≤ f.stateId.length) && decide (1 ≤ f.name.length)

/-- Submit button disabled flag (LocationsDistrictDialog.tsx line 127). -/
def submitDisabled (isSaving isValid : Bool) : Bool :=
  isSaving || !isValid

end LocationsDistrictDialog

/-! ## Bulk upload dialogs -/

/-- A bulk upload request as handed to the remote call: the chosen parent id
and the raw textarea contents (part_001 lines 259-267 and 1541-1549 pass both
through unmodified). -/
structure BulkUploadRequest where
  parentId : String
  items : String
  deriving DecidableEq, Repr

namespace BulkUploadMandalsDialog

/-- Upload button disabled flag (part_001 line 161): no district chosen, the
trimmed text empty, or an upload in flight. -/
def uploadDisabled (districtId items : String) (isUploading : Bool) : Bool :=
  (districtId == "") || (items.trim == "") || isUploading

/-- Request built when Upload is pressed (part_001 lines 160, 259-260,
420-423): the district id and the raw text exactly as entered. -/
def uploadRequest (districtId items : String) : BulkUploadRequest :=
  { parentId := districtId, items := items }

end BulkUploadMandalsDialog

namespace BulkUploadVillagesDialog

/-- Upload button disabled flag (part_001 line 1395). -/
def uploadDisabled (mandalId items : String) (isUploading : Bool) : Bool :=
  (mandalId == "") || (items.trim == "") || isUploading

/-- Request built when Upload is pressed (part_001 lines 1394, 1541-1542,
1735-1738). -/
def uploadRequest (mandalId items : String) : BulkUploadRequest :=
  { parentId := mandalId, items := items }

end BulkUploadVillagesDialog

/-! ## GroupedCombobox deselect behaviour (modelled) and Locations filters -/

/-- Modelled from the spec: the GroupedCombobox component
(components/ui/grouped-combobox) is code of this repository that is not under
src; per the spec, in the Locations filter UI toggling a filter to the value
it already holds clears it, so selecting the currently held value emits the
empty string and selecting any other value emits that value. -/
def groupedComboboxEmit (current chosen : String) : String :=
  if chosen = current then "" else chosen

namespace LocationsMandalsPage

/-- Filter state of the Locations Mandals page (part_001 lines 178-179). -/
structure Filters where
  stateFilter : String
  districtFilter : String
  deriving DecidableEq, Repr

/-- Handler of the state filter combobox (part_001 lines 308-315): stores the
emitted value and clears the district filter. -/
def selectStateFilter (s : Filters) (chosen : String) : Filters :=
  { s with stateFilter := groupedComboboxEmit s.stateFilter chosen,
           districtFilter := "" }

end LocationsMandalsPage

/-! ## Client-side code generation on create (Locations pages) -/

/-- Modelled from the source expression
Math.random().toString(36).substring(2, 8).toUpperCase(): the random draw is
represented by the fractional base-36 digit string of its toString(36)
rendering (the characters after the leading "0."), of which the first six are
taken and uppercased. The rendering of a double uses only as many digits as
round-tripping needs, so this string can be shorter than six characters
(toString(36) of 0.5 is "0.i"). -/
def randomBase36Take6Upper (digits : String) : String :=
  String.mk ((digits.toList.take 6).map Char.toUpper)

namespace LocationsMandalsPage

/-- Form data of the Locations mandal dialog (mandalSchema fields, part_001
lines 486-492); the optional code is an empty string when absent. -/
structure FormData where
  stateId : String
  districtId : String
  name : String
  code : String
  isActive : Bool
  deriving DecidableEq, Repr

/-- Payload built by the create dialog onSave (part_001 lines 389-395): the
form data unchanged, except that a blank code is replaced by the letter M
followed by the uppercased first six fractional base-36 digits of a random
draw. -/
def createPayload (data : FormData) (randDigits : String) : FormData :=
  if data.code = "" then { data with code := "M" ++ randomBase36Take6Upper randDigits }
  else data

end LocationsMandalsPage

namespace LocationsVillagesPage

/-- Payload built by the create dialog onSave (part_001 lines 1698-1705): the
form data unchanged, except that a blank code is replaced by the letter V
followed by the uppercased first six fractional base-36 digits of a random
draw. -/
def createPayload (data : LocationsVillageDialog.FormData) (randDigits : String) :
    LocationsVillageDialog.FormData :=
  if data.code = "" then { data with code := "V" ++ randomBase36Take6Upper randDigits }
  else data

end LocationsVillagesPage

/-! ## IkpVillagesPage: edit payload -/

namespace IkpVillagesPage

/-- Form data of the IKP village dialog (villageSchema fields, part_001 lines
754-758). -/
structure FormData where
  mandalId : String
  name : String
  isActive : Bool
  deriving DecidableEq, Repr

/-- Update request for an IKP village, with every field optional so that an
omitted field is not transmitted; the page never constructs a request carrying
mandalId. -/
structure UpdateRequest where
  mandalId : Option String
  name : Option String
  isActive : Option Bool
  deriving DecidableEq, Repr

/-- Payload built by the edit dialog onSave (part_001 lines 1168-1177): only
the name and the active flag of the form are sent. -/
def editPayload (data : FormData) : UpdateRequest :=
  { mandalId := none, name := some data.name, isActive := some data.isActive }

end IkpVillagesPage

/-! ## Helper lemmas -/

/-- A string of length at least one is not the empty string. -/
theorem ne_empty_of_one_le_length {s : String} (h : 1 ≤ s.length) : s ≠ "" := by
  intro heq
  rw [heq] at h
  simp at h

/-- A truthiness gate of the form Boolean(id and id.trim()) accepts only a
non-empty id. -/
theorem gate_ne_empty {s : String} (h : ((s != "") && (s.trim != "")) = true) : s ≠ "" := by
  simp only [Bool.and_eq_true, bne_iff_ne, ne_eq] at h
  exact h.1

/-! ## Sample inputs used by the witnesses -/

/-- Sample filter state of the IKP Centers page with a full chain selected. -/
def sampleCentersFilters : IkpCentersPage.Filters :=
  { search := "", stateId := "s2", districtId := "d9", mandalId := "m9",
    villageId := "v9", includeInactive := true }

/-- Sample IKP center form with a full chain selected. -/
def sampleCenterForm : IkpCenterDialog.FormData :=
  { stateId := "s2", districtId := "d9", mandalId := "m9", villageId := "v9",
    name := "Katakoteswaram IKP Center", notes := "", isActive := true }

/-- Sample Locations village form with a full chain selected. -/
def sampleVillageForm : LocationsVillageDialog.FormData :=
  { stateId := "s2", districtId := "d9", mandalId := "m9",
    name := "Katakoteswaram", code := "", pincode := "", isActive := true }

/-- Sample Locations district collection over two states. -/
def sampleDistricts : List AdminDistrict :=
  [{ id := "d1", stateId := "s1", name := "East Godavari", isActive := true },
   { id := "d2", stateId := "s2", name := "West Godavari", isActive := true }]

/-- Sample IKP district collection over two states. -/
def sampleIkpDistricts : List AdminIkpDistrict :=
  [{ id := "d1", stateId := "s1", name := "East Godavari", isActive := true },
   { id := "d2", stateId := "s2", name := "West Godavari", isActive := true }]

/-- Sample Locations district in state s1. -/
def sampleDistrict : AdminDistrict :=
  { id := "d1", stateId := "s1", name := "East Godavari", isActive := true }

/-- Sample IKP district in state s1. -/
def sampleIkpDistrict : AdminIkpDistrict :=
  { id := "d1", stateId := "s1", name := "East Godavari", isActive := true }

/-! ## C1: selecting a State resets the chain and narrows the districts -/

/-- C1: changing the State selection resets the District, Mandal and Village
selections to empty, in the filter context (IKP Centers page) and in the form
contexts (IKP center dialog and Locations village dialog, the latter having no
village level below the mandal), and afterwards the district option list is
exactly the subset of the full district collection whose stateId equals the
newly selected state id, both for the client-side derivation and for the
contract-modelled server-filtered query. -/
theorem claimC1 (p : IkpCentersPage.Filters) (g : IkpCenterDialog.FormData)
    (f : LocationsVillageDialog.FormData) (v : String)
    (districts : List AdminDistrict) (allIkp : List AdminIkpDistrict)
    (d : AdminDistrict) (e : AdminIkpDistrict)
    (hchange : v ≠ g.stateId) (hv : v ≠ "") :
    (IkpCentersPage.setStateFilter p v).stateId = v ∧
    (IkpCentersPage.setStateFilter p v).districtId = "" ∧
    (IkpCentersPage.setStateFilter p v).mandalId = "" ∧
    (IkpCentersPage.setStateFilter p v).villageId = "" ∧
    (IkpCenterDialog.stateSelectionChange g v).stateId = v ∧
    (IkpCenterDialog.stateSelectionChange g v).districtId = "" ∧
    (IkpCenterDialog.stateSelectionChange g v).mandalId = "" ∧
    (IkpCenterDialog.stateSelectionChange g v).villageId = "" ∧
    (LocationsVillageDialog.stateOnValueChange f v).stateId = v ∧
    (LocationsVillageDialog.stateOnValueChange f v).districtId = "" ∧
    (LocationsVillageDialog.stateOnValueChange f v).mandalId = "" ∧
    (d ∈ LocationsVillageDialog.filteredDistricts districts v ↔
      d ∈ districts ∧ d.stateId = v) ∧
    (e ∈ listAdminIkpDistrictsByState allIkp v ↔ e ∈ allIkp ∧ e.stateId = v) := by
  refine ⟨rfl, rfl, rfl, rfl, ?_, ?_, ?_, ?_, rfl, rfl, rfl, ?_, ?_⟩
  · simp [IkpCenterDialog.stateSelectionChange, hchange]
  · simp [IkpCenterDialog.stateSelectionChange, hchange]
  · simp [IkpCenterDialog.stateSelectionChange, hchange]
  · simp [IkpCenterDialog.stateSelectionChange, hchange]
  · simp [LocationsVillageDialog.filteredDistricts, hv, List.mem_filter]
  · simp [listAdminIkpDistrictsByState, List.mem_filter]

/-- C1 witness: the chain reset and the narrowed district list at a concrete
filter state, form states, district collections and the newly selected state
s1. -/
theorem claimC1_witness :
    (IkpCentersPage.setStateFilter sampleCentersFilters "s1").stateId = "s1" ∧
    (IkpCentersPage.setStateFilter sampleCentersFilters "s1").districtId = "" ∧
    (IkpCentersPage.setStateFilter sampleCentersFilters "s1").mandalId = "" ∧
    (IkpCentersPage.setStateFilter sampleCentersFilters "s1").villageId = "" ∧
    (IkpCenterDialog.stateSelectionChange sampleCenterForm "s1").stateId = "s1" ∧
    (IkpCenterDialog.stateSelectionChange sampleCenterForm "s1").districtId = "" ∧
    (IkpCenterDialog.stateSelectionChange sampleCenterForm "s1").mandalId = "" ∧
    (IkpCenterDialog.stateSelectionChange sampleCenterForm "s1").villageId = "" ∧
    (LocationsVillageDialog.stateOnValueChange sampleVillageForm "s1").stateId = "s1" ∧
    (LocationsVillageDialog.stateOnValueChange sampleVillageForm "s1").districtId = "" ∧
    (LocationsVillageDialog.stateOnValueChange sampleVillageForm "s1").mandalId = "" ∧
    (sampleDistrict ∈ LocationsVillageDialog.filteredDistricts sampleDistricts "s1" ↔
      sampleDistrict ∈ sampleDistricts ∧ sampleDistrict.stateId = "s1") ∧
    (sampleIkpDistrict ∈ listAdminIkpDistrictsByState sampleIkpDistricts "s1" ↔
      sampleIkpDistrict ∈ sampleIkpDistricts ∧ sampleIkpDistrict.stateId = "s1") :=
  claimC1 sampleCentersFilters sampleCenterForm sampleVillageForm "s1"
    sampleDistricts sampleIkpDistricts sampleDistrict sampleIkpDistrict
    (by decide) (by decide)

/-! ## C2: dependent query gating on the server-filtered pages -/

/-- C2 counterexample: on the IKP Mandals page the district option query is
enabled while the state selection is empty, as soon as the states query has
succeeded, so a level option list is fetched with its parent unchosen. -/
theorem claimC2_counterexample :
    IkpMandalsPage.districtsQueryEnabled { stateId := "", statesSuccess := true } = true ∧
    ({ stateId := "", statesSuccess := true } : IkpMandalsPage.QueryState).stateId = "" :=
  ⟨rfl, rfl⟩

/-- C2 (amended): on the IKP Centers page, in its filter row and in its
dialog, and on the IKP Villages page, every dependent option or list query is
enabled only once the parent id is non-empty; on the IKP Mandals page,
however, the district option query is enabled exactly when the states query
has succeeded, independent of the state selection. -/
theorem claimC2 :
    (∀ pid, IkpCentersPage.districtsFilterQueryEnabled pid = true → pid ≠ "") ∧
    (∀ pid, IkpCentersPage.mandalsFilterQueryEnabled pid = true → pid ≠ "") ∧
    (∀ pid, IkpCentersPage.villagesFilterQueryEnabled pid = true → pid ≠ "") ∧
    (∀ pid, IkpCenterDialog.districtsQueryEnabled pid = true → pid ≠ "") ∧
    (∀ pid, IkpCenterDialog.mandalsQueryEnabled pid = true → pid ≠ "") ∧
    (∀ pid, IkpCenterDialog.villagesQueryEnabled pid = true → pid ≠ "") ∧
    (∀ pid ok, IkpVillagesPage.districtsQueryEnabled pid ok = true → pid ≠ "") ∧
    (∀ pid ok, IkpVillagesPage.mandalsQueryEnabled pid ok = true → pid ≠ "") ∧
    (∀ pid ok, IkpVillagesPage.listQueryEnabled pid ok = true → pid ≠ "") ∧
    (∀ s, IkpMandalsPage.districtsQueryEnabled s = s.statesSuccess) := by
  refine ⟨fun pid h => gate_ne_empty h, fun pid h => gate_ne_empty h,
    fun pid h => gate_ne_empty h, fun pid h => gate_ne_empty h,
    fun pid h => gate_ne_empty h, fun pid h => gate_ne_empty h,
    ?_, ?_, ?_, fun s => rfl⟩
  · intro pid ok h
    rw [IkpVillagesPage.districtsQueryEnabled, Bool.and_eq_true] at h
    exact gate_ne_empty h.1
  · intro pid ok h
    rw [IkpVillagesPage.mandalsQueryEnabled, Bool.and_eq_true] at h
    exact gate_ne_empty h.1
  · intro pid ok h
    rw [IkpVillagesPage.listQueryEnabled, Bool.and_eq_true] at h
    exact gate_ne_empty h.1

/-! ## C3: derived option lists under an empty or chosen parent -/

/-- C3 counterexample: on the Locations Mandals page, with the state filter
empty the derived district option list is the full district collection, not
the empty set. -/
theorem claimC3_counterexample :
    LocationsMandalsPage.districtFilterGroups
        [{ id := "d1", stateId := "s1", name := "East Godavari", isActive := true }] "" =
      [{ id := "d1", stateId := "s1", name := "East Godavari", isActive := true }] ∧
    LocationsMandalsPage.districtFilterGroups
        [{ id := "d1", stateId := "s1", name := "East Godavari", isActive := true }] "" ≠ [] := by
  constructor
  · rfl
  · decide

/-- C3 (amended): in the dialog form chains an empty parent selection makes
the derived child option list empty and a chosen parent narrows it to the
subset whose parent-reference field matches; in the Locations pages filter
rows an empty parent selection instead leaves the full candidate collection
(the child control being disabled then), and a chosen parent narrows it to
the same subset. -/
theorem claimC3 :
    (∀ ds : List AdminDistrict, LocationsVillageDialog.filteredDistricts ds "" = []) ∧
    (∀ (ds : List AdminDistrict) (v : String), v ≠ "" →
      LocationsVillageDialog.filteredDistricts ds v = ds.filter (fun d => d.stateId == v)) ∧
    (∀ ms : List AdminMandal, LocationsVillageDialog.filteredMandals ms "" = []) ∧
    (∀ (ms : List AdminMandal) (v : String), v ≠ "" →
      LocationsVillageDialog.filteredMandals ms v = ms.filter (fun m => m.districtId == v)) ∧
    (∀ ds : List AdminDistrict, LocationsMandalsPage.districtFilterGroups ds "" = ds) ∧
    (∀ (ds : List AdminDistrict) (v : String), v ≠ "" →
      LocationsMandalsPage.districtFilterGroups ds v = ds.filter (fun d => d.stateId == v)) ∧
    (∀ ds : List AdminDistrict, LocationsVillagesPage.districtFilterGroups ds "" = ds) ∧
    (∀ (ds : List AdminDistrict) (v : String), v ≠ "" →
      LocationsVillagesPage.districtFilterGroups ds v = ds.filter (fun d => d.stateId == v)) ∧
    (∀ ms : List AdminMandal, LocationsVillagesPage.mandalFilterGroups ms "" = ms) ∧
    (∀ (ms : List AdminMandal) (v : String), v ≠ "" →
      LocationsVillagesPage.mandalFilterGroups ms v = ms.filter (fun m => m.districtId == v)) := by
  refine ⟨fun ds => rfl, fun ds v hv => ?_, fun ms => rfl, fun ms v hv => ?_,
    fun ds => rfl, fun ds v hv => ?_, fun ds => rfl, fun ds v hv => ?_,
    fun ms => rfl, fun ms v hv => ?_⟩
  · simp [LocationsVillageDialog.filteredDistricts, hv]
  · simp [LocationsVillageDialog.filteredMandals, hv]
  · simp [LocationsMandalsPage.districtFilterGroups, hv]
  · simp [LocationsVillagesPage.districtFilterGroups, hv]
  · simp [LocationsVillagesPage.mandalFilterGroups, hv]

/-! ## C4: failed mutations on the IKP Mandals page -/

/-- C4 counterexample: a failed deactivation on the IKP Mandals page does not
close the confirmation dialog state; the deactivate target survives the
onError callback untouched, so the confirmation dialog stays open. -/
theorem claimC4_counterexample :
    (IkpMandalsPage.deactivateOnError RemoteFailure.unrecognized
        { createOpen := false, editing := none,
          deactivateTarget :=
            some { id := "m1", districtId := "d1", name := "Rajahmundry Rural", isActive := true },
          items := [{ id := "m1", districtId := "d1", name := "Rajahmundry Rural", isActive := true }],
          toasts := [] }).deactivateTarget =
      some { id := "m1", districtId := "d1", name := "Rajahmundry Rural", isActive := true } ∧
    (IkpMandalsPage.deactivateOnError RemoteFailure.unrecognized
        { createOpen := false, editing := none,
          deactivateTarget :=
            some { id := "m1", districtId := "d1", name := "Rajahmundry Rural", isActive := true },
          items := [{ id := "m1", districtId := "d1", name := "Rajahmundry Rural", isActive := true }],
          toasts := [] }).deactivateTarget ≠ none := by
  constructor
  · rfl
  · decide

/-- C4 (amended): when a mutation of the IKP Mandals page fails, a toast is
shown carrying the remote error message if the thrown value is a recognizable
Error and otherwise a generic per-action fallback string; a failed create or
edit leaves the triggering dialog open, and a failed deactivate likewise
leaves the confirmation dialog state in place (the target is cleared only on
success), with no change applied to the fetched rows. -/
theorem claimC4 (e : RemoteFailure) (s : IkpMandalsPage.PageState) :
    (IkpMandalsPage.createOnError e s).toasts =
      { message := remoteFailureToast e "Failed to create mandal.",
        kind := ToastKind.error } :: s.toasts ∧
    (IkpMandalsPage.updateOnError e s).toasts =
      { message := remoteFailureToast e "Failed to update mandal.",
        kind := ToastKind.error } :: s.toasts ∧
    (IkpMandalsPage.deactivateOnError e s).toasts =
      { message := remoteFailureToast e "Failed to deactivate mandal.",
        kind := ToastKind.error } :: s.toasts ∧
    (∀ msg, remoteFailureToast (RemoteFailure.recognized msg) "Failed to create mandal." = msg) ∧
    remoteFailureToast RemoteFailure.unrecognized "Failed to create mandal." =
      "Failed to create mandal." ∧
    (IkpMandalsPage.createOnError e s).createOpen = s.createOpen ∧
    (IkpMandalsPage.updateOnError e s).editing = s.editing ∧
    (IkpMandalsPage.deactivateOnError e s).deactivateTarget = s.deactivateTarget ∧
    (IkpMandalsPage.createOnError e s).items = s.items ∧
    (IkpMandalsPage.updateOnError e s).items = s.items ∧
    (IkpMandalsPage.deactivateOnError e s).items = s.items ∧
    (IkpMandalsPage.deactivateOnSuccess "Mandal deactivated." s).deactivateTarget = none :=
  ⟨rfl, rfl, rfl, fun _ => rfl, rfl, rfl, rfl, rfl, rfl, rfl, rfl, rfl⟩

/-! ## C5: locked ancestor edit dialogs require a dirty form -/

/-- Sample mandal form differing from the snapshot only in the active flag. -/
def sampleMandalForm : IkpMandalsPage.FormData :=
  { districtId := "d1", name := "Rajahmundry Rural", isActive := false }

/-- Sample mandal snapshot loaded into the edit dialog. -/
def sampleMandalSnapshot : IkpMandalsPage.FormData :=
  { districtId := "d1", name := "Rajahmundry Rural", isActive := true }

/-- C5: in the edit-mode mandal dialog, whose district selector is locked,
submit stays disabled while the form equals the loaded snapshot; with the
district locked, the form differs from the snapshot exactly when another
field (name or active flag) differs; and once some other field differs, the
form is valid and no save is in flight, submit is enabled. -/
theorem claimC5 (f snapshot : IkpMandalsPage.FormData) (isSaving : Bool)
    (hlock : f.districtId = snapshot.districtId) :
    (f = snapshot →
      IkpMandalsPage.submitDisabled isSaving (IkpMandalsPage.mandalSchemaIsValid f) true
        (IkpMandalsPage.formIsDirty f snapshot) = true) ∧
    (f ≠ snapshot ↔ f.name ≠ snapshot.name ∨ f.isActive ≠ snapshot.isActive) ∧
    (f ≠ snapshot → IkpMandalsPage.mandalSchemaIsValid f = true → isSaving = false →
      IkpMandalsPage.submitDisabled isSaving (IkpMandalsPage.mandalSchemaIsValid f) true
        (IkpMandalsPage.formIsDirty f snapshot) = false) := by
  refine ⟨?_, ?_, ?_⟩
  · intro h
    subst h
    simp [IkpMandalsPage.submitDisabled, IkpMandalsPage.formIsDirty]
  · constructor
    · intro hne
      by_contra hcon
      push_neg at hcon
      apply hne
      cases f
      cases snapshot
      simp only [IkpMandalsPage.FormData.mk.injEq]
      exact ⟨hlock, hcon.1, hcon.2⟩
    · intro hor heq
      subst heq
      rcases hor with hname | hact
      · exact hname rfl
      · exact hact rfl
  · intro hne hval hsav
    simp [IkpMandalsPage.submitDisabled, IkpMandalsPage.formIsDirty, hne, hval, hsav]

/-- C5 witness: with the district locked and only the active flag changed,
the dirty form with a valid name and no save in flight has submit enabled,
and the pristine snapshot keeps it disabled. -/
theorem claimC5_witness :
    (sampleMandalForm = sampleMandalSnapshot →
      IkpMandalsPage.submitDisabled false (IkpMandalsPage.mandalSchemaIsValid sampleMandalForm) true
        (IkpMandalsPage.formIsDirty sampleMandalForm sampleMandalSnapshot) = true) ∧
    (sampleMandalForm ≠ sampleMandalSnapshot ↔
      sampleMandalForm.name ≠ sampleMandalSnapshot.name ∨
      sampleMandalForm.isActive ≠ sampleMandalSnapshot.isActive) ∧
    (sampleMandalForm ≠ sampleMandalSnapshot →
      IkpMandalsPage.mandalSchemaIsValid sampleMandalForm = true → false = false →
      IkpMandalsPage.submitDisabled false (IkpMandalsPage.mandalSchemaIsValid sampleMandalForm) true
        (IkpMandalsPage.formIsDirty sampleMandalForm sampleMandalSnapshot) = false) :=
  claimC5 sampleMandalForm sampleMandalSnapshot false rfl

/-! ## C6: submit gating by schema validity and saving flag -/

/-- C6: in every entity dialog submit is disabled whenever schema validation
fails or a save is in flight, and it is enabled only when the form is valid
and no save is pending; and schema validity entails that every required field
is populated (shown for the Locations village and district dialogs and the
IKP district dialog, whose edit mode adds a dirtiness disjunct that can only
disable further). -/
theorem claimC6 :
    (∀ isSaving isValid, (isValid = false ∨ isSaving = true) →
      LocationsVillageDialog.submitDisabled isSaving isValid = true) ∧
    (∀ isSaving isValid, LocationsVillageDialog.submitDisabled isSaving isValid = false →
      isValid = true ∧ isSaving = false) ∧
    (∀ isSaving isValid, (isValid = false ∨ isSaving = true) →
      LocationsDistrictDialog.submitDisabled isSaving isValid = true) ∧
    (∀ isSaving isValid, LocationsDistrictDialog.submitDisabled isSaving isValid = false →
      isValid = true ∧ isSaving = false) ∧
    (∀ isSaving isValid lock dirty, (isValid = false ∨ isSaving = true) →
      IkpDistrictsPage.submitDisabled isSaving isValid lock dirty = true) ∧
    (∀ isSaving isValid lock dirty,
      IkpDistrictsPage.submitDisabled isSaving isValid lock dirty = false →
      isValid = true ∧ isSaving = false) ∧
    (∀ f : LocationsVillageDialog.FormData, LocationsVillageDialog.schemaIsValid f = true →
      f.stateId ≠ "" ∧ f.districtId ≠ "" ∧ f.mandalId ≠ "" ∧ f.name ≠ "") ∧
    (∀ f : LocationsDistrictDialog.FormData, LocationsDistrictDialog.schemaIsValid f = true →
      f.stateId ≠ "" ∧ f.name ≠ "") ∧
    (∀ f : IkpDistrictsPage.FormData, IkpDistrictsPage.districtSchemaIsValid f = true →
      f.stateId ≠ "" ∧ f.name ≠ "") := by
  refine ⟨by decide, by decide, by decide, by decide, by decide, by decide, ?_, ?_, ?_⟩
  · intro f h
    simp only [LocationsVillageDialog.schemaIsValid, Bool.and_eq_true, decide_eq_true_eq] at h
    exact ⟨ne_empty_of_one_le_length h.1.1.1, ne_empty_of_one_le_length h.1.1.2,
      ne_empty_of_one_le_length h.1.2, ne_empty_of_one_le_length h.2⟩
  · intro f h
    simp only [LocationsDistrictDialog.schemaIsValid, Bool.and_eq_true, decide_eq_true_eq] at h
    exact ⟨ne_empty_of_one_le_length h.1, ne_empty_of_one_le_length h.2⟩
  · intro f h
    simp only [IkpDistrictsPage.districtSchemaIsValid, Bool.and_eq_true, decide_eq_true_eq] at h
    exact ⟨ne_empty_of_one_le_length h.1.1, ne_empty_of_one_le_length h.1.2⟩

/-! ## C7: bulk upload gating and pass-through -/

/-- C7: in both bulk-upload dialogs the Upload button is enabled only when
the chosen parent id is non-empty and the raw text is non-blank, and the
request built on upload carries the parent id and the raw text exactly as
entered, with no splitting, trimming or de-duplication applied. -/
theorem claimC7 (parentId items : String) (isUploading : Bool) :
    (BulkUploadMandalsDialog.uploadDisabled parentId items isUploading = false →
      parentId ≠ "" ∧ items.trim ≠ "") ∧
    (BulkUploadVillagesDialog.uploadDisabled parentId items isUploading = false →
      parentId ≠ "" ∧ items.trim ≠ "") ∧
    BulkUploadMandalsDialog.uploadRequest parentId items =
      { parentId := parentId, items := items } ∧
    BulkUploadVillagesDialog.uploadRequest parentId items =
      { parentId := parentId, items := items } := by
  refine ⟨?_, ?_, rfl, rfl⟩
  · intro h
    simp only [BulkUploadMandalsDialog.uploadDisabled, Bool.or_eq_false_iff,
      beq_eq_false_iff_ne, ne_eq] at h
    exact ⟨h.1.1, h.1.2⟩
  · intro h
    simp only [BulkUploadVillagesDialog.uploadDisabled, Bool.or_eq_false_iff,
      beq_eq_false_iff_ne, ne_eq] at h
    exact ⟨h.1.1, h.1.2⟩

/-! ## C8: re-selecting a held filter value deselects it -/

/-- C8: in the Locations filter UI, selecting in a filter the value it
already holds clears that filter, so from any state not already holding the
value, selecting the same value twice leaves the filter empty. -/
theorem claimC8 (s : LocationsMandalsPage.Filters) (v : String)
    (hne : s.stateFilter ≠ v) :
    (LocationsMandalsPage.selectStateFilter s v).stateFilter = v ∧
    (LocationsMandalsPage.selectStateFilter
        (LocationsMandalsPage.selectStateFilter s v) v).stateFilter = "" ∧
    (∀ t : LocationsMandalsPage.Filters, t.stateFilter = v →
      (LocationsMandalsPage.selectStateFilter t v).stateFilter = "") := by
  refine ⟨?_, ?_, ?_⟩
  · simp [LocationsMandalsPage.selectStateFilter, groupedComboboxEmit, Ne.symm hne]
  · simp [LocationsMandalsPage.selectStateFilter, groupedComboboxEmit, Ne.symm hne]
  · intro t ht
    simp [LocationsMandalsPage.selectStateFilter, groupedComboboxEmit, ht.symm]

/-- C8 witness: starting from an empty state filter, selecting state s1 twice
leaves the filter empty; re-selecting a held value clears it. -/
theorem claimC8_witness :
    (LocationsMandalsPage.selectStateFilter
        { stateFilter := "", districtFilter := "" } "s1").stateFilter = "s1" ∧
    (LocationsMandalsPage.selectStateFilter
        (LocationsMandalsPage.selectStateFilter
          { stateFilter := "", districtFilter := "" } "s1") "s1").stateFilter = "" ∧
    (∀ t : LocationsMandalsPage.Filters, t.stateFilter = "s1" →
      (LocationsMandalsPage.selectStateFilter t "s1").stateFilter = "") :=
  claimC8 { stateFilter := "", districtFilter := "" } "s1" (by decide)

/-! ## C9: client-generated code on create -/

/-- C9 counterexample: when Math.random draws one half, toString(36) renders
it as the three characters 0.i, the fractional digit string is the single
character i, and the generated mandal code is the two characters MI - not a
seven character string of M followed by six base-36 characters. -/
theorem claimC9_counterexample :
    (LocationsMandalsPage.createPayload
        { stateId := "s1", districtId := "d1", name := "Rajahmundry Rural",
          code := "", isActive := true } "i").code = "MI" ∧
    ((LocationsMandalsPage.createPayload
        { stateId := "s1", districtId := "d1", name := "Rajahmundry Rural",
          code := "", isActive := true } "i").code).length ≠ 7 := by
  constructor
  · decide
  · decide

/-- C9 (amended): on create of a Mandal or Village in the Locations pages,
a blank Code makes the submitted code the prefixed letter (M or V) followed by
the uppercased first base-36 digits of the random draw, up to six of them, so
at most seven characters in all, chosen with no collision check against any
existing collection; every other payload field equals the form data unchanged,
and a user-supplied code leaves the whole payload unchanged. -/
theorem claimC9 (dataM : LocationsMandalsPage.FormData)
    (dataV : LocationsVillageDialog.FormData) (randDigits : String) :
    (dataM.code ≠ "" → LocationsMandalsPage.createPayload dataM randDigits = dataM) ∧
    (dataM.code = "" →
      (LocationsMandalsPage.createPayload dataM randDigits).code =
        "M" ++ randomBase36Take6Upper randDigits ∧
      (LocationsMandalsPage.createPayload dataM randDigits).stateId = dataM.stateId ∧
      (LocationsMandalsPage.createPayload dataM randDigits).districtId = dataM.districtId ∧
      (LocationsMandalsPage.createPayload dataM randDigits).name = dataM.name ∧
      (LocationsMandalsPage.createPayload dataM randDigits).isActive = dataM.isActive ∧
      ((LocationsMandalsPage.createPayload dataM randDigits).code).length ≤ 7) ∧
    (dataV.code ≠ "" → LocationsVillagesPage.createPayload dataV randDigits = dataV) ∧
    (dataV.code = "" →
      (LocationsVillagesPage.createPayload dataV randDigits).code =
        "V" ++ randomBase36Take6Upper randDigits ∧
      (LocationsVillagesPage.createPayload dataV randDigits).stateId = dataV.stateId ∧
      (LocationsVillagesPage.createPayload dataV randDigits).districtId = dataV.districtId ∧
      (LocationsVillagesPage.createPayload dataV randDigits).mandalId = dataV.mandalId ∧
      (LocationsVillagesPage.createPayload dataV randDigits).name = dataV.name ∧
      (LocationsVillagesPage.createPayload dataV randDigits).pincode = dataV.pincode ∧
      (LocationsVillagesPage.createPayload dataV randDigits).isActive = dataV.isActive ∧
      ((LocationsVillagesPage.createPayload dataV randDigits).code).length ≤ 7) := by
  have hfrag : (randomBase36Take6Upper randDigits).length ≤ 6 := by
    have h1 : (randomBase36Take6Upper randDigits).length =
        ((randDigits.toList.take 6).map Char.toUpper).length := rfl
    rw [h1, List.length_map, List.length_take]
    exact min_le_left _ _
  refine ⟨?_, ?_, ?_, ?_⟩
  · intro h
    simp [LocationsMandalsPage.createPayload, h]
  · intro h
    have hlen : ("M" ++ randomBase36Take6Upper randDigits).length ≤ 7 := by
      have h2 : ("M" ++ randomBase36Take6Upper randDigits).length =
          ("M" : String).length + (randomBase36Take6Upper randDigits).length :=
        String.length_append _ _
      have h3 : ("M" : String).length = 1 := rfl
      omega
    refine ⟨?_, ?_, ?_, ?_, ?_, ?_⟩
    · simp [LocationsMandalsPage.createPayload, h]
    · simp [LocationsMandalsPage.createPayload, h]
    · simp [LocationsMandalsPage.createPayload, h]
    · simp [LocationsMandalsPage.createPayload, h]
    · simp [LocationsMandalsPage.createPayload, h]
    · simpa [LocationsMandalsPage.createPayload, h] using hlen
  · intro h
    simp [LocationsVillagesPage.createPayload, h]
  · intro h
    have hlen : ("V" ++ randomBase36Take6Upper randDigits).length ≤ 7 := by
      have h2 : ("V" ++ randomBase36Take6Upper randDigits).length =
          ("V" : String).length + (randomBase36Take6Upper randDigits).length :=
        String.length_append _ _
      have h3 : ("V" : String).length = 1 := rfl
      omega
    refine ⟨?_, ?_, ?_, ?_, ?_, ?_, ?_, ?_⟩
    · simp [LocationsVillagesPage.createPayload, h]
    · simp [LocationsVillagesPage.createPayload, h]
    · simp [LocationsVillagesPage.createPayload, h]
    · simp [LocationsVillagesPage.createPayload, h]
    · simp [LocationsVillagesPage.createPayload, h]
    · simp [LocationsVillagesPage.createPayload, h]
    · simp [LocationsVillagesPage.createPayload, h]
    · simpa [LocationsVillagesPage.createPayload, h] using hlen

/-! ## C10: the IKP village update payload never carries the mandal -/

/-- C10: the update payload the IKP Villages page sends for an edited village
carries only the name and the active flag; the mandalId is never transmitted,
so two form states differing only in their mandalId produce identical update
requests and the page cannot re-parent a village. -/
theorem claimC10 :
    (∀ d : IkpVillagesPage.FormData, (IkpVillagesPage.editPayload d).mandalId = none) ∧
    (∀ d : IkpVillagesPage.FormData,
      (IkpVillagesPage.editPayload d).name = some d.name ∧
      (IkpVillagesPage.editPayload d).isActive = some d.isActive) ∧
    (∀ d₁ d₂ : IkpVillagesPage.FormData, d₁.name = d₂.name → d₁.isActive = d₂.isActive →
      IkpVillagesPage.editPayload d₁ = IkpVillagesPage.editPayload d₂) :=
  ⟨fun _ => rfl, fun _ => ⟨rfl, rfl⟩,
    fun d₁ d₂ h1 h2 => by simp [IkpVillagesPage.editPayload, h1, h2]⟩
